import Mathlib

/-!
Shallow embedding of `src/app.py` (US National Debt Tracker).

The program fetches daily debt records from the Treasury fiscal-data API,
cleans them into a descending-by-date table, derives point-in-time metrics
(`delta_24h`, `pct_change_24h`, `debt_per_citizen`, `pct_change_10y`), and
builds a display table with a `daily_change` column.

Modelling conventions:
- calendar dates are `Nat` (days since an epoch); the API serves one record
  per date string, and `pd.to_datetime` is injective on well-formed dates;
- debt amounts are `ℚ` (Python floats on the realistic value range behave
  like exact arithmetic for the additive identities proved here; where IEEE
  semantics diverge — division by zero — the theorems only use the shape of
  the result, never its ℚ value);
- `st.error` calls are collected as an effect list, separate from the Python
  return value;
- an exception that escapes `fetch_debt_data` (only
  `requests.exceptions.RequestException` is caught by the `except` clause)
  is the `FetchOutcome.raises` constructor.
-/

/-- A cleaned record: `record_date` (calendar date) and
`tot_pub_debt_out_amt` (the amount after `astype(float)`). -/
structure DebtRecord where
  record_date : Nat
  tot_pub_debt_out_amt : ℚ
deriving DecidableEq, Repr

/-- The amount field of a raw API record: a numeric-as-string that either
parses as a float or does not (`float("not-a-number")` raises). -/
inductive AmountField where
  | num (q : ℚ)
  | notNumeric (s : String)
deriving DecidableEq, Repr

/-- Whether the raw amount string parses as a float. -/
def AmountField.isNum : AmountField → Bool
  | .num _ => true
  | .notNumeric _ => false

/-- A raw record of the JSON payload under the `"data"` key. -/
structure RawRecord where
  record_date : Nat
  amount : AmountField
deriving DecidableEq, Repr

/-- The JSON body of a 2xx response: either it is missing the top-level
`"data"` key, or it carries a list of raw records. -/
inductive Json where
  | missingDataKey
  | withData (records : List RawRecord)
deriving DecidableEq, Repr

/-- What the network produces for one request: a transport/HTTP failure
(timeout, non-2xx after `raise_for_status`, network error — all surfacing
as `requests.exceptions.RequestException` with message `msg`), or a 2xx
response with a JSON body. -/
inductive ApiResponse where
  | transportError (msg : String)
  | payload (body : Json)
deriving DecidableEq, Repr

/-- Embedding of `df[col].astype(float)` on one cell: `ValueError` if not numeric. -/
def parseAmount : AmountField → Except String ℚ
  | .num q => .ok q
  | .notNumeric s => .error ("could not convert string to float: " ++ s)

/-- Embedding of `df["tot_pub_debt_out_amt"].astype(float)` over the whole column:
the first non-numeric cell raises and the whole conversion fails. -/
def parseAll : List RawRecord → Except String (List DebtRecord)
  | [] => .ok []
  | r :: rest =>
    match parseAmount r.amount with
    | .error e => .error e
    | .ok q =>
      match parseAll rest with
      | .error e => .error e
      | .ok recs => .ok (DebtRecord.mk r.record_date q :: recs)

/-- The debt record a raw record parses to when its amount is numeric
(junk value `0` on the non-numeric constructor, which `parseAll` never
reaches). -/
def RawRecord.toDebtRecord (r : RawRecord) : DebtRecord :=
  match r.amount with
  | .num q => ⟨r.record_date, q⟩
  | .notNumeric _ => ⟨r.record_date, 0⟩

/-- The sort key of `df.sort_values(by="record_date", ascending=False)`:
`a` may precede `b` iff `b`'s date is at most `a`'s. -/
def descRel (a b : DebtRecord) : Prop :=
  b.record_date ≤ a.record_date

instance : DecidableRel descRel := fun a b =>
  inferInstanceAs (Decidable (b.record_date ≤ a.record_date))

instance : IsTotal DebtRecord descRel :=
  ⟨fun a b => Nat.le_total b.record_date a.record_date⟩

instance : IsTrans DebtRecord descRel :=
  ⟨fun _ _ _ hab hbc => Nat.le_trans hbc hab⟩

/-- Embedding of `df.sort_values(by="record_date", ascending=False)`. -/
def sortDescByDate (l : List DebtRecord) : List DebtRecord :=
  List.insertionSort descRel l

/-- The observable outcome of calling `fetch_debt_data`: a normal Python
return (the DataFrame as a record list, plus the `st.error` messages
emitted on the way), or an exception escaping the function. -/
inductive FetchOutcome where
  | returns (df : List DebtRecord) (errors : List String)
  | raises (exn : String)
deriving DecidableEq, Repr

/-- The message of the `st.error` call in the `except` branch. -/
def transportErrMsg (e : String) : String :=
  "Error fetching data from Treasury API: " ++ e

/-- Embedding of `fetch_debt_data` (src/app.py lines 20-54), as a function of what the
network returns. The `try` block covers response handling, the `"data"`
check, DataFrame construction, cleaning and sorting, but the `except`
clause catches only `requests.exceptions.RequestException`, so two other
exceptions escape: on an empty `"data"` list, `pd.DataFrame([])` has no
columns and `df["record_date"]` (line 44) raises `KeyError`; on a
non-numeric amount, `astype(float)` (line 45) raises `ValueError`. -/
def fetch_debt_data (resp : ApiResponse) : FetchOutcome :=
  match resp with
  | .transportError e => .returns [] [transportErrMsg e]
  | .payload body =>
    match body with
    | .missingDataKey => .returns [] ["API returned unexpected format."]
    | .withData [] => .raises "KeyError: record_date"
    | .withData (r :: rest) =>
      match parseAll (r :: rest) with
      | .error e => .raises e
      | .ok records => .returns (sortDescByDate records) []

/-- The Python return value of `fetch_debt_data`, when it returns at all. -/
def FetchOutcome.returnValue : FetchOutcome → Option (List DebtRecord)
  | .returns df _ => some df
  | .raises _ => none

/-- Constant `US_POPULATION = 335_000_000` (src/app.py line 16). -/
def US_POPULATION : ℚ := 335000000

/-- The derived metrics of `main` (src/app.py lines 110-133). `None`
becomes `Option.none`. -/
structure Metrics where
  current_debt : ℚ
  delta_24h : Option ℚ
  pct_change_24h : Option ℚ
  debt_per_citizen : ℚ
  pct_change_10y : Option ℚ
deriving DecidableEq, Repr

/-- The metrics block of `main` on a fetched DataFrame `df` (descending by
date): `latest_record = df.iloc[0]`, `previous_record = df.iloc[1]` when
`len(df) >= 2`, `oldest_record = df.iloc[-1]` when `len(df) >= 365`.
`main` returns before this block when `df` is empty; on `[]` this embedding
returns a junk record that no theorem relies on. -/
def computeMetrics (df : List DebtRecord) : Metrics :=
  match df with
  | [] => ⟨0, none, none, 0, none⟩
  | latest :: rest =>
    let current_debt := latest.tot_pub_debt_out_amt
    let deltaPair : Option ℚ × Option ℚ :=
      match rest with
      | [] => (none, none)
      | prev :: _ =>
        let d := current_debt - prev.tot_pub_debt_out_amt
        (some d, some (d / prev.tot_pub_debt_out_amt * 100))
    let pct10 : Option ℚ :=
      if 365 ≤ (latest :: rest).length then
        let debt_10y_ago :=
          ((latest :: rest).getLastD latest).tot_pub_debt_out_amt
        some ((current_debt - debt_10y_ago) / debt_10y_ago * 100)
      else none
    { current_debt := current_debt
      delta_24h := deltaPair.1
      pct_change_24h := deltaPair.2
      debt_per_citizen := current_debt / US_POPULATION
      pct_change_10y := pct10 }

/-- Embedding of `series.diff(-1)` on a column of values: entry `i` is
`value[i] - value[i+1]`, and the last entry is `NaN` (here `none`). -/
def diffLag1 : List ℚ → List (Option ℚ)
  | [] => []
  | [_] => [none]
  | x :: y :: rest => some (x - y) :: diffLag1 (y :: rest)

/-- The `daily_change` column as the source computes it (src/app.py
line 218): `-df_display["tot_pub_debt_out_amt"].diff(-1)`, i.e. the
elementwise negation of `diffLag1` (`-NaN` stays `NaN`). -/
def daily_change_col (vals : List ℚ) : List (Option ℚ) :=
  (diffLag1 vals).map (Option.map Neg.neg)

/-- The `df_display` frame while the table section builds it: its rows,
whether the `daily_change` column has been assigned yet, and whether the
rename / date-reformat steps have run. -/
structure DisplayFrame where
  rows : List DebtRecord
  daily_change : Option (List (Option ℚ))
  renamed : Bool
  date_formatted : Bool
deriving DecidableEq, Repr

/-- Embedding of `df.copy()`: a fresh frame holding the same rows, no extra column. -/
def DisplayFrame.ofCopy (df : List DebtRecord) : DisplayFrame :=
  ⟨df, none, false, false⟩

/-- Embedding of `df_display.sort_values(by="record_date", ascending=False)`. -/
def DisplayFrame.sortDesc (f : DisplayFrame) : DisplayFrame :=
  { f with rows := sortDescByDate f.rows }

/-- Embedding of `df_display["daily_change"] = -df_display[...].diff(-1)`. -/
def DisplayFrame.assignDailyChange (f : DisplayFrame) : DisplayFrame :=
  let col := daily_change_col (f.rows.map DebtRecord.tot_pub_debt_out_amt)
  { f with daily_change := some col }

/-- Embedding of `df_display.rename(columns=...)` (display-name change only). -/
def DisplayFrame.renameCols (f : DisplayFrame) : DisplayFrame :=
  { f with renamed := true }

/-- Embedding of `df_display["DATE"] = df_display["DATE"].dt.strftime("%Y-%m-%d")`
(formatting of the date column for display). -/
def DisplayFrame.formatDates (f : DisplayFrame) : DisplayFrame :=
  { f with date_formatted := true }

/-- The state of the data-table section of `main`: the canonical fetched
frame `df` and the (initially absent) display frame `df_display`. -/
structure TableState where
  df : List DebtRecord
  df_display : Option DisplayFrame
deriving DecidableEq, Repr

/-- The data-table section (src/app.py lines 216-228): copy `df`, re-sort
the copy descending, assign the `daily_change` column, rename the columns,
reformat the dates. Every step acts on the copy. -/
def buildDisplayTable (s : TableState) : TableState :=
  let f0 := DisplayFrame.ofCopy s.df
  let f1 := f0.sortDesc
  let f2 := f1.assignDailyChange
  let f3 := f2.renameCols
  let f4 := f3.formatDates
  { s with df_display := some f4 }

/-- The `daily_change` column of the finished display table built from a
fetched frame `df` (for reading off concrete table contents). -/
def displayDailyChange (df : List DebtRecord) : List (Option ℚ) :=
  match (buildDisplayTable ⟨df, none⟩).df_display with
  | some f => f.daily_change.getD []
  | none => []

/-- What a run of `main` ends in, as a function of the network response:
the "no data" warning branch (`df.empty`), a rendered dashboard (metrics
plus display table), or an uncaught exception. -/
inductive MainOutcome where
  | noData
  | rendered (m : Metrics) (t : TableState)
  | crashed (exn : String)
deriving DecidableEq, Repr

/-- Embedding of `main` after the fetch (src/app.py lines 102-228): empty frame short
circuits to the warning; otherwise the metrics and the display table are
computed; an exception escaping `fetch_debt_data` propagates. -/
def main_run (resp : ApiResponse) : MainOutcome :=
  match fetch_debt_data resp with
  | .raises e => .crashed e
  | .returns df _msgs =>
    if df.isEmpty then .noData
    else .rendered (computeMetrics df) (buildDisplayTable ⟨df, none⟩)

/-- The cache key of the memoized fetch: the `date_trigger` ("today",
forcing daily invalidation) and the `days` window, the two arguments of
`fetch_debt_data`. -/
structure CacheKey where
  date_trigger : Nat
  days : Nat
deriving DecidableEq, Repr

/-- Modelled from the spec: the cache state of the `@st.cache_data`
decorator on `fetch_debt_data` (src/app.py line 19) — the decorator's
implementation is library code, not in src. Per the spec it is a mapping
from the argument key to the previously returned series. -/
def FetchCache : Type := List (CacheKey × List DebtRecord)

/-- Cache lookup for a key. -/
def FetchCache.lookup (c : FetchCache) (k : CacheKey) :
    Option (List DebtRecord) :=
  (List.lookup k c : Option (List DebtRecord))

/-- Modelled from the spec: `st.cache_data.clear()` (src/app.py line 86)
empties the cache, so the next call bypasses it. -/
def clearedCache : FetchCache := []

/-- Result of one call of the memoized fetch: the outcome, the cache
afterwards, and whether the network was hit on this call. -/
structure CachedFetchResult where
  outcome : FetchOutcome
  cache : FetchCache
  networkCalled : Bool

/-- Modelled from the spec: one call of the cached `fetch_debt_data`.
`net` is what the network would answer for each key during the window. On
a cache hit the stored series is returned without a network call; on a
miss the body runs and a returned value is stored (an escaping exception
stores nothing). -/
def cachedFetch (net : CacheKey → ApiResponse) (c : FetchCache)
    (k : CacheKey) : CachedFetchResult :=
  match c.lookup k with
  | some df => ⟨.returns df [], c, false⟩
  | none =>
    match fetch_debt_data (net k) with
    | .returns df msgs => ⟨.returns df msgs, (k, df) :: c, true⟩
    | .raises e => ⟨.raises e, c, true⟩

/-- The series carried by a fetch outcome (empty when it raised). -/
def FetchOutcome.series : FetchOutcome → List DebtRecord
  | .returns df _ => df
  | .raises _ => []

/-- When every amount in the payload is numeric, the column conversion
succeeds and yields the records in payload order. -/
lemma parseAll_eq_ok_of_isNum :
    ∀ rl : List RawRecord, (∀ r ∈ rl, r.amount.isNum = true) →
      parseAll rl = .ok (rl.map RawRecord.toDebtRecord)
  | [], _ => rfl
  | r :: rest, h => by
    have hr : r.amount.isNum = true := h r (List.mem_cons_self r rest)
    have hrest := parseAll_eq_ok_of_isNum rest
      (fun x hx => h x (List.mem_cons_of_mem r hx))
    cases ha : r.amount with
    | num q =>
      simp [parseAll, parseAmount, ha, hrest, RawRecord.toDebtRecord]
    | notNumeric s => simp [AmountField.isNum, ha] at hr

/-- The defensive re-sort really sorts: the output is weakly descending by
date. -/
lemma sorted_sortDescByDate (l : List DebtRecord) :
    List.Sorted descRel (sortDescByDate l) :=
  List.sorted_insertionSort descRel l

/-- The defensive re-sort is a permutation: no record is dropped or
invented. -/
lemma perm_sortDescByDate (l : List DebtRecord) :
    List.Perm (sortDescByDate l) l :=
  List.perm_insertionSort descRel l

/-- In a weakly descending list, the last element has the minimal date. -/
lemma getLastD_date_le_of_sorted :
    ∀ (l : List DebtRecord) (d : DebtRecord), List.Sorted descRel l →
      ∀ x ∈ l, (l.getLastD d).record_date ≤ x.record_date
  | [], _, _, _, hx => absurd hx (List.not_mem_nil _)
  | [a], _, _, x, hx => by
    rcases List.mem_singleton.mp hx with rfl
    simp [List.getLastD]
  | a :: b :: t, d, hs, x, hx => by
    have htail := getLastD_date_le_of_sorted (b :: t) a hs.of_cons
    rw [List.getLastD_cons d a (b :: t)]
    rcases List.mem_cons.mp hx with hxa | hx2
    · rw [hxa]
      calc ((b :: t).getLastD a).record_date
          ≤ b.record_date := htail b (List.mem_cons_self b t)
        _ ≤ a.record_date :=
          (List.rel_of_sorted_cons hs b (List.mem_cons_self b t) : descRel a b)
    · exact htail x hx2

/-- C3 amended: for a series of length at least two whose second-most-recent
value is zero, the code still computes the percent change (the division is
performed unconditionally), so the field is not null. -/
theorem pct_change_24h_not_null_of_zero_prev
    (latest : DebtRecord) (d : Nat) (rest : List DebtRecord) :
    ((computeMetrics (latest :: ⟨d, 0⟩ :: rest)).pct_change_24h).isSome
      = true := by
  simp [computeMetrics]

/-- C3 counterexample: on the concrete two-record series with previous
value `0.0`, `pct_change_24h` is not null/absent — the code divides by the
zero value instead of substituting `None` (under the source's numpy float
semantics the displayed value is infinite or NaN, not an omitted field). -/
theorem pct_change_24h_zero_denominator_counterexample :
    ((computeMetrics [⟨2, 5⟩, ⟨1, 0⟩]).pct_change_24h).isSome = true := by
  simp [computeMetrics]

/-- C5: on a descending series with at least two records, `delta_24h` is
latest minus second-most-recent and `pct_change_24h` is that delta over the
second-most-recent value times 100; on a one-record series both are `None`
(no exception, no division) while `debt_per_citizen` is still computed as
latest over `US_POPULATION`. -/
theorem metrics_delta_pct_per_capita
    (latest prev : DebtRecord) (rest : List DebtRecord) :
    (computeMetrics (latest :: prev :: rest)).delta_24h
        = some (latest.tot_pub_debt_out_amt - prev.tot_pub_debt_out_amt)
    ∧ (computeMetrics (latest :: prev :: rest)).pct_change_24h
        = some ((latest.tot_pub_debt_out_amt - prev.tot_pub_debt_out_amt)
            / prev.tot_pub_debt_out_amt * 100)
    ∧ (computeMetrics [latest]).delta_24h = none
    ∧ (computeMetrics [latest]).pct_change_24h = none
    ∧ (computeMetrics [latest]).pct_change_10y = none
    ∧ (computeMetrics [latest]).debt_per_citizen
        = latest.tot_pub_debt_out_amt / US_POPULATION := by
  refine ⟨rfl, rfl, rfl, rfl, ?_, rfl⟩
  norm_num [computeMetrics]

/-- C2: a payload whose amount field is the string `"not-a-number"` makes
`fetch_debt_data` raise an uncaught `ValueError` (the `except` clause
catches only `requests.exceptions.RequestException`), rather than
returning an empty series with a `ParseError` signal. -/
theorem fetch_raises_on_non_numeric_amount :
    fetch_debt_data (.payload (.withData [⟨738521, .notNumeric "not-a-number"⟩]))
      = .raises "could not convert string to float: not-a-number" := rfl

/-- C1: on the descending three-day series with values
`[103.0, 105.0, 100.0]`, the code's `daily_change` column evaluates to
`[2.0, -5.0, None]` — the negation of the claimed `[-2.0, 5.0, null]`,
because line 218 negates `diff(-1)` (which already is
`value[i] - value[i+1]`). -/
theorem daily_change_sign_flipped :
    displayDailyChange [⟨3, 103⟩, ⟨2, 105⟩, ⟨1, 100⟩]
      = [some 2, some (-5), none] := by
  norm_num [displayDailyChange, buildDisplayTable, DisplayFrame.ofCopy,
    DisplayFrame.sortDesc, DisplayFrame.assignDailyChange,
    DisplayFrame.renameCols, DisplayFrame.formatDates, sortDescByDate,
    daily_change_col, diffLag1, descRel, List.insertionSort,
    List.orderedInsert]

/-- C7: a transport or HTTP failure makes the fetch return an empty series
together with a human-readable error message carrying the cause, and the
caller takes the "no data" warning branch instead of crashing. -/
theorem transport_failure_degrades_to_no_data (e : String) :
    fetch_debt_data (.transportError e) = .returns [] [transportErrMsg e]
    ∧ main_run (.transportError e) = .noData :=
  ⟨rfl, rfl⟩

/-- C8: the data-table section builds the display table on a copy — after
it runs, the canonical fetched series in the state is unchanged, and the
display frame has been produced. -/
theorem buildDisplayTable_leaves_df_unchanged (df : List DebtRecord) :
    (buildDisplayTable ⟨df, none⟩).df = df
    ∧ ((buildDisplayTable ⟨df, none⟩).df_display).isSome = true :=
  ⟨rfl, rfl⟩

/-- Parsing preserves the date of a raw record. -/
lemma toDebtRecord_date (r : RawRecord) :
    (RawRecord.toDebtRecord r).record_date = r.record_date := by
  cases h : r.amount <;> simp [RawRecord.toDebtRecord, h]

/-- The dates of the cleaned, re-sorted series are a permutation of the
upstream dates. -/
lemma perm_dates_fetch (rl : List RawRecord) :
    List.Perm
      ((sortDescByDate (rl.map RawRecord.toDebtRecord)).map
        DebtRecord.record_date)
      (rl.map RawRecord.record_date) := by
  have hp0 := (perm_sortDescByDate
    (rl.map RawRecord.toDebtRecord)).map DebtRecord.record_date
  have hmm : (rl.map RawRecord.toDebtRecord).map DebtRecord.record_date
      = rl.map RawRecord.record_date := by
    induction rl with
    | nil => rfl
    | cons r t ih => simp [toDebtRecord_date, ih]
  rwa [hmm] at hp0

/-- C4: when a nonempty payload has every amount numeric (the fetch
succeeds and returns — an empty `"data"` list instead raises `KeyError`)
and the upstream dates are pairwise distinct, the returned series —
whatever order the API sent the records in — is sorted strictly descending
by date, has no duplicate dates, and carries exactly the upstream
dates. -/
theorem fetch_sorted_strict_desc_nodup (r0 : RawRecord)
    (rtail : List RawRecord)
    (hnum : ∀ r ∈ r0 :: rtail, r.amount.isNum = true)
    (hnd : ((r0 :: rtail).map RawRecord.record_date).Nodup) :
    ∃ df, fetch_debt_data (.payload (.withData (r0 :: rtail)))
        = .returns df []
      ∧ (df.map DebtRecord.record_date).Pairwise (fun a b => b < a)
      ∧ (df.map DebtRecord.record_date).Nodup
      ∧ List.Perm (df.map DebtRecord.record_date)
          ((r0 :: rtail).map RawRecord.record_date) := by
  refine ⟨sortDescByDate ((r0 :: rtail).map RawRecord.toDebtRecord),
    ?_, ?_, ?_, perm_dates_fetch (r0 :: rtail)⟩
  · simp [fetch_debt_data, parseAll_eq_ok_of_isNum (r0 :: rtail) hnum]
  case refine_3 => exact ((perm_dates_fetch (r0 :: rtail)).nodup_iff).mpr hnd
  case refine_2 =>
    have hsorted : List.Pairwise descRel
        (sortDescByDate ((r0 :: rtail).map RawRecord.toDebtRecord)) :=
      sorted_sortDescByDate _
    have hnd2 : ((sortDescByDate
        ((r0 :: rtail).map RawRecord.toDebtRecord)).map
        DebtRecord.record_date).Nodup :=
      ((perm_dates_fetch (r0 :: rtail)).nodup_iff).mpr hnd
    have hne : List.Pairwise
        (fun a b : DebtRecord => a.record_date ≠ b.record_date)
        (sortDescByDate ((r0 :: rtail).map RawRecord.toDebtRecord)) :=
      (List.pairwise_map).mp hnd2
    rw [List.pairwise_map]
    exact hsorted.imp₂
      (fun _ _ h1 h2 => lt_of_le_of_ne h1 (Ne.symm h2)) hne

/-- C6: on a nonempty series sorted descending by date, the long-window
percent change is computed exactly when the series has at least 365
records, in which case it equals (latest − oldest) / oldest × 100 with the
oldest record being the chronologically earliest one held; below 365
records it is `None`. -/
theorem pct_change_10y_window (latest : DebtRecord) (rest : List DebtRecord)
    (hs : List.Sorted descRel (latest :: rest)) :
    ((computeMetrics (latest :: rest)).pct_change_10y
      = if 365 ≤ (latest :: rest).length
        then some ((latest.tot_pub_debt_out_amt
            - ((latest :: rest).getLastD latest).tot_pub_debt_out_amt)
            / ((latest :: rest).getLastD latest).tot_pub_debt_out_amt * 100)
        else none)
    ∧ ∀ r ∈ latest :: rest,
        ((latest :: rest).getLastD latest).record_date ≤ r.record_date := by
  exact ⟨rfl, getLastD_date_le_of_sorted _ latest hs⟩

/-- A concrete 365-record descending series with oldest value 1000 and
latest value 1100. -/
def df365 : List DebtRecord :=
  ⟨365, 1100⟩ :: (List.replicate 363 ⟨100, 1050⟩ ++ [⟨1, 1000⟩])

/-- C9: with the spec-modelled cache, a second fetch with the same key
returns the identical series without a network call, and a call right
after an explicit cache-clear hits the network. -/
theorem cached_fetch_idempotent (net : CacheKey → ApiResponse)
    (c : FetchCache) (k : CacheKey) (df : List DebtRecord)
    (msgs : List String)
    (h : fetch_debt_data (net k) = .returns df msgs) :
    ((cachedFetch net (cachedFetch net c k).cache k).outcome).series
        = ((cachedFetch net c k).outcome).series
    ∧ (cachedFetch net (cachedFetch net c k).cache k).networkCalled = false
    ∧ (cachedFetch net clearedCache k).networkCalled = true := by
  have hclear : (cachedFetch net clearedCache k).networkCalled = true := by
    simp [cachedFetch, clearedCache, FetchCache.lookup, h]
  cases hc : List.lookup k c with
  | some s =>
    refine ⟨?_, ?_, hclear⟩ <;>
      simp [cachedFetch, FetchCache.lookup, hc]
  | none =>
    refine ⟨?_, ?_, hclear⟩ <;>
      simp [cachedFetch, FetchCache.lookup, hc, h, List.lookup,
        FetchOutcome.series]

/-- A fixed network answering every request with one well-formed record. -/
def constNet : CacheKey → ApiResponse :=
  fun _ => .payload (.withData [⟨5, .num 7⟩])

/-- C10: a payload missing the `"data"` key and a transport failure are
indistinguishable by the Python return value of `fetch_debt_data` — both
return the same empty DataFrame. -/
theorem missing_key_and_transport_failure_same_return (e : String) :
    (fetch_debt_data (.payload .missingDataKey)).returnValue
        = (fetch_debt_data (.transportError e)).returnValue
    ∧ (fetch_debt_data (.payload .missingDataKey)).returnValue = some [] :=
  ⟨rfl, rfl⟩

/-- The tail block of `df365` is weakly descending by date. -/
lemma sorted_df365_block :
    ∀ n, List.Sorted descRel
      (List.replicate n (⟨100, 1050⟩ : DebtRecord) ++ [⟨1, 1000⟩])
  | 0 => by simp
  | n + 1 => by
    rw [List.replicate_succ, List.cons_append, List.sorted_cons]
    refine ⟨?_, sorted_df365_block n⟩
    intro y hy
    rcases List.mem_append.mp hy with hy1 | hy2
    · rw [List.eq_of_mem_replicate hy1]
      exact Nat.le_refl _
    · rw [List.mem_singleton.mp hy2]
      exact Nat.le_of_lt (by norm_num)

/-- The concrete 365-record series is sorted descending by date. -/
lemma sorted_df365 : List.Sorted descRel
    ((⟨365, 1100⟩ : DebtRecord) ::
      (List.replicate 363 ⟨100, 1050⟩ ++ [⟨1, 1000⟩])) := by
  rw [List.sorted_cons]
  refine ⟨?_, sorted_df365_block 363⟩
  intro y hy
  rcases List.mem_append.mp hy with hy1 | hy2
  · rw [List.eq_of_mem_replicate hy1]
    exact Nat.le_of_lt (by norm_num)
  · rw [List.mem_singleton.mp hy2]
    exact Nat.le_of_lt (by norm_num)

set_option maxRecDepth 10000 in
/-- Witness for C6: on the concrete sorted 365-record series with oldest
value 1000 and latest value 1100, the long-window percent change computes
to exactly 10. -/
theorem pct_change_10y_window_witness :
    List.Sorted descRel df365
    ∧ (computeMetrics df365).pct_change_10y = some 10 := by
  refine ⟨sorted_df365, ?_⟩
  have h := (pct_change_10y_window ⟨365, 1100⟩
    (List.replicate 363 (⟨100, 1050⟩ : DebtRecord) ++ [⟨1, 1000⟩])
    sorted_df365).1
  show (computeMetrics ((⟨365, 1100⟩ : DebtRecord) ::
    (List.replicate 363 ⟨100, 1050⟩ ++ [⟨1, 1000⟩]))).pct_change_10y
    = some 10
  rw [h]
  have hlast : ((⟨365, 1100⟩ : DebtRecord) ::
      (List.replicate 363 ⟨100, 1050⟩ ++ [⟨1, 1000⟩])).getLastD ⟨365, 1100⟩
      = ⟨1, 1000⟩ := by
    rw [show ((⟨365, 1100⟩ : DebtRecord) ::
        (List.replicate 363 ⟨100, 1050⟩ ++ [⟨1, 1000⟩]))
        = ((⟨365, 1100⟩ :: List.replicate 363 ⟨100, 1050⟩) ++ [⟨1, 1000⟩])
      from rfl]
    exact List.getLastD_concat _ _ _
  rw [hlast]
  norm_num

/-- A concrete shuffled upstream payload with distinct dates and numeric
amounts. -/
def rawShuffled : List RawRecord :=
  [⟨2, .num 5⟩, ⟨3, .num 7⟩, ⟨1, .num 4⟩]

/-- Witness for C4: on the concrete out-of-order payload, the fetch
returns a strictly descending, duplicate-free series over the same
dates. -/
theorem fetch_sorted_strict_desc_nodup_witness :
    (∀ r ∈ rawShuffled, r.amount.isNum = true)
    ∧ (rawShuffled.map RawRecord.record_date).Nodup
    ∧ ∃ df, fetch_debt_data (.payload (.withData rawShuffled))
          = .returns df []
        ∧ (df.map DebtRecord.record_date).Pairwise (fun a b => b < a)
        ∧ (df.map DebtRecord.record_date).Nodup
        ∧ List.Perm (df.map DebtRecord.record_date)
            (rawShuffled.map RawRecord.record_date) :=
  ⟨by decide, by decide,
    fetch_sorted_strict_desc_nodup ⟨2, .num 5⟩ [⟨3, .num 7⟩, ⟨1, .num 4⟩]
      (by decide) (by decide)⟩

/-- Witness for C9: with the concrete constant network, the first cached
fetch hits the network, the second call with the same key returns the
identical series without a network call, and a call right after a clear
hits the network again. -/
theorem cached_fetch_idempotent_witness :
    fetch_debt_data (constNet ⟨738900, 365⟩) = .returns [⟨5, 7⟩] []
    ∧ (((cachedFetch constNet
          (cachedFetch constNet clearedCache ⟨738900, 365⟩).cache
          ⟨738900, 365⟩).outcome).series
        = ((cachedFetch constNet clearedCache ⟨738900, 365⟩).outcome).series
      ∧ (cachedFetch constNet
          (cachedFetch constNet clearedCache ⟨738900, 365⟩).cache
          ⟨738900, 365⟩).networkCalled = false
      ∧ (cachedFetch constNet clearedCache ⟨738900, 365⟩).networkCalled
          = true) :=
  ⟨rfl, cached_fetch_idempotent constNet clearedCache ⟨738900, 365⟩
    [⟨5, 7⟩] [] rfl⟩
